import Mathlib

/-!
Shallow embedding of `src/cr_agente_9.py` (Agente 9 — Recover): a
backup-integrity validation agent (`ValidationAgent`), a priority-driven
restoration orchestrator (`OrchestrationAgent`) and the supervisor
(`CyberResilienceSystem`).

Modelling choices, all taken from the source:
- Files: the backup store (directory `backups/`) is an association list
  from file name to `FileData`; a name absent from the list models a file
  that does not exist (`os.path.exists` false).  `FileData.ioError` models
  a file whose `open`/`read` raises an `OSError` other than
  `FileNotFoundError` (the file is listed by `os.listdir` but reading it
  fails).  Fallible operations return `Except Unit`, the error being an
  uncaught Python exception propagating to the caller.
- The SHA-256 digest of `hashlib` is abstracted as a function parameter
  `hash : Bytes → Digest`; every claim depends only on equality or
  inequality of digests, never on the concrete hash values, so theorems
  quantify over the hash function and witnesses instantiate it with the
  concrete injective `encodeBytes`.
- Python `dict`s (`known_hashes`, `results`, `critical_services`, the
  demand sample) are association lists in insertion order; assignment
  `d[k] = v` is `dictSet` (overwrite in place, or append for a new key),
  exactly dict semantics.
- Python numbers: demands, thresholds and priorities mix `int` and IEEE
  `float` in the source; they are modelled by exact rationals `Rat`.
  Every comparison the claims exercise is exact in IEEE double as well
  (`threshold * 1.5` is exact for integer thresholds since 1.5 = 3/2 is a
  dyadic rational, and `1 / 0.1` rounds to exactly 10.0), so the rational
  model and the float code agree on all the compared values.
-/

namespace CyberResilience

/-- Content digest, abstracting the hex string returned by
`hashlib.sha256(...).hexdigest()`; only digest equality is ever used. -/
abbrev Digest := Nat

/-- File contents as a byte sequence. -/
abbrev Bytes := List Nat

/-- State of one file in the backup store: readable contents, or a file
whose read raises an I/O error. -/
inductive FileData where
  | readable (bytes : Bytes)
  | ioError
deriving DecidableEq, Repr

/-- The backup directory: `os.listdir` order is list order; membership is
existence. -/
abbrev BackupStore := List (String × FileData)

/-- The persisted hash ledger `hash_db.json`: artifact name to digest. -/
abbrev HashDb := List (String × Digest)

/-- Lookup in a Python dict modelled as an association list. -/
def dictGet {α : Type} : List (String × α) → String → Option α
  | [], _ => none
  | (k, v) :: rest, n => if k = n then some v else dictGet rest n

/-- Assignment `d[k] = v` on a Python dict: overwrite an existing key in
place, append a new key at the end (insertion order preserved). -/
def dictSet {α : Type} : List (String × α) → String → α → List (String × α)
  | [], n, v => [(n, v)]
  | (k, w) :: rest, n, v =>
      if k = n then (n, v) :: rest else (k, w) :: dictSet rest n v

/-- Existence and contents of a file in the backup directory. -/
def lookupFile (store : BackupStore) (name : String) : Option FileData :=
  dictGet store name

/-- ValidationAgent.calculate_hash: streams the file in 4096-byte chunks
into SHA-256.  Chunked updates hash the concatenation, so the digest is
`hash` of the whole byte sequence; an `OSError` raised by `open`/`read`
propagates (there is no try/except in `calculate_hash`). -/
def calculate_hash (hash : Bytes → Digest) : FileData → Except Unit Digest
  | .readable bytes => .ok (hash bytes)
  | .ioError => .error ()

/-- ValidationAgent.verify_backup (lines 56-83).  Returns the
`(is_valid, message)` pair together with the resulting state of
`hash_db.json` (`none` models the file being absent; the file is written
only in the trust-on-first-use registration branch, line 80). -/
def verify_backup (hash : Bytes → Digest) (store : BackupStore)
    (hashDbFile : Option HashDb) (backup_file : String) :
    Except Unit ((Bool × String) × Option HashDb) :=
  match lookupFile store backup_file with
  | none => .ok ((false, "Backup no encontrado"), hashDbFile)
  | some fd =>
    match calculate_hash hash fd with
    | .error e => .error e
    | .ok current_hash =>
      let known_hashes := hashDbFile.getD []
      match dictGet known_hashes backup_file with
      | some known =>
        if known = current_hash then
          .ok ((true, "Integridad verificada"), hashDbFile)
        else
          .ok ((false, "Hash no coincide"), hashDbFile)
      | none =>
        .ok ((true, "Nuevo backup registrado"),
             some (dictSet known_hashes backup_file current_hash))

/-- Per-backup entry of `self.integrity_status`. -/
structure IntegrityStatus where
  valid : Bool
  message : String
  last_checked : String
deriving DecidableEq, Repr

/-- Loop body of ValidationAgent.full_validation_cycle over the names
returned by `os.listdir(backup_dir)`: each backup is verified and its
status recorded; an exception raised by `verify_backup` propagates and
aborts the whole loop (there is no try/except around the body). -/
def validation_loop (hash : Bytes → Digest) (now : String)
    (store : BackupStore) :
    List String → Option HashDb → List (String × IntegrityStatus) →
    Except Unit (List (String × IntegrityStatus) × Option HashDb)
  | [], db, status => .ok (status, db)
  | backup :: rest, db, status =>
    match verify_backup hash store db backup with
    | .error e => .error e
    | .ok ((is_valid, message), db') =>
        validation_loop hash now store rest db'
          (dictSet status backup ⟨is_valid, message, now⟩)

/-- ValidationAgent.full_validation_cycle (lines 85-98): verifies every
file listed in the backup directory, threading the hash ledger and the
`integrity_status` dict. -/
def full_validation_cycle (hash : Bytes → Digest) (now : String)
    (store : BackupStore) (db : Option HashDb)
    (status : List (String × IntegrityStatus)) :
    Except Unit (List (String × IntegrityStatus) × Option HashDb) :=
  validation_loop hash now store (store.map (fun p => p.1)) db status

/-- Concrete injective byte encoding standing in for SHA-256 in closed
witnesses (the theorems themselves quantify over the hash function). -/
def encodeBytes (b : Bytes) : Digest :=
  b.foldl (fun a x => a * 256 + x + 1) 0

/-- One entry of the `critical_services` registry:
`{"priority": p, "demand_threshold": t}`. -/
structure ServiceData where
  priority : Rat
  demand_threshold : Rat
deriving DecidableEq, Repr

/-- The registry `config.critical_services`, a dict in insertion order. -/
abbrev Registry := List (String × ServiceData)

/-- BackupConfig.load_critical_services fallback (lines 33-37): the
built-in default registry returned when `critical_services.json` is
absent. -/
def default_critical_services : Registry :=
  [("servicio_db", ⟨1, 100⟩),
   ("servicio_api", ⟨2, 80⟩),
   ("servicio_web", ⟨3, 50⟩)]

/-- A demand sample `self.current_demands`: service id to sampled load. -/
abbrev Demands := List (String × Rat)

/-- OrchestrationAgent.evaluate_demands (lines 111-119): the simulated
demand snapshot, hardcoded in the source. -/
def evaluate_demands : Demands :=
  [("servicio_db", 150), ("servicio_api", 65), ("servicio_web", 30)]

/-- Demand used for a service: `demands.get(service, 0)` (line 127 and
line 183). -/
def demandOf (demands : Demands) (service : String) : Rat :=
  (dictGet demands service).getD 0

/-- Python builtin `max(a, b)` on two numbers: returns `b` when `a < b`,
otherwise `a` (on equal values both orders denote the same number). -/
def pymax (a b : Rat) : Rat := if a < b then b else a

/-- Priority formula of OrchestrationAgent.prioritize_services
(lines 128-132): `priority * (1 / max(0.1, demand / threshold))`; lower
value means restored earlier. -/
def effective_priority (data : ServiceData) (current_demand : Rat) : Rat :=
  data.priority * (1 / pymax (0.1 : Rat) (current_demand / data.demand_threshold))

/-- Insert one keyed element into an already sorted list, after every
element with a smaller-or-equal key: together with `sortByKey` this is a
stable ascending sort, matching Python `list.sort(key=...)`. -/
def insertByKey (x : Rat × String) : List (Rat × String) → List (Rat × String)
  | [] => [x]
  | y :: ys => if x.1 ≤ y.1 then x :: y :: ys else y :: insertByKey x ys

/-- Stable ascending sort by the first component, matching
`priority_list.sort(key=lambda x: x[0])` (line 137). -/
def sortByKey : List (Rat × String) → List (Rat × String)
  | [] => []
  | x :: xs => insertByKey x (sortByKey xs)

/-- OrchestrationAgent.prioritize_services (lines 121-138): score every
registered service with `effective_priority` against the sampled demand
and return the service ids sorted by ascending score. -/
def prioritize_services (cs : Registry) (demands : Demands) : List String :=
  (sortByKey (cs.map (fun p => (effective_priority p.2 (demandOf demands p.1), p.1)))).map
    (fun p => p.2)

/-- Mode test of OrchestrationAgent.orchestrate_restorations (line 185):
`partial = current_demand < threshold * 1.5`; `true` selects the
"parcial" restore, `false` the "completa" one. -/
def selectMode (current_demand threshold : Rat) : Bool :=
  decide (current_demand < threshold * 1.5)

/-- The production directory: service id to the dict of files written
under `production/<service>/`. -/
abbrev Production := List (String × List (String × Bytes))

/-- Write one file under `production/<service>/` (creating the service
directory when absent, as `os.makedirs` does at line 155). -/
def setProdFile (production : Production) (service fname : String)
    (bytes : Bytes) : Production :=
  dictSet production service
    (dictSet ((dictGet production service).getD []) fname bytes)

/-- OrchestrationAgent.restore_service (lines 140-169): verify the backup
first, fail with "Backup inválido" on an invalid one without touching the
production store; otherwise copy the backup bytes to
`partial_restore`/`full_restore` under the service's target.  An
exception raised by `verify_backup` itself propagates (the try block
covers only the copy, lines 152-169); an exception raised inside the try
block is caught and returned as `(False, str(e))`. -/
def restore_service (hash : Bytes → Digest) (store : BackupStore)
    (db : Option HashDb) (production : Production)
    (service backup_file : String) (modePartialFlag : Bool) :
    Except Unit ((Bool × String) × Option HashDb × Production) :=
  match verify_backup hash store db backup_file with
  | .error e => .error e
  | .ok ((is_valid, _), db') =>
    if is_valid then
      match lookupFile store backup_file with
      | some (.readable bytes) =>
          let fname := if modePartialFlag then "partial_restore" else "full_restore"
          .ok ((true, "Restauración exitosa"), db',
               setProdFile production service fname bytes)
      | _ =>
          -- unreachable when is_valid: a verified/registered backup was
          -- just read by calculate_hash; models the except-handler result
          .ok ((false, "Error de copia"), db', production)
    else
      .ok ((false, "Backup inválido"), db', production)

/-- Variant of `restore_service` modelling a failure inside the try block
of lines 152-169: `shutil.copy` (line 159/162) raises after writing the
first `k` bytes of the source, leaving the destination file holding that
prefix; the handler at line 168 catches the exception and returns
`(False, str(e))` (the message is the parameter `errMsg`).  The source
copies straight to the final path — there is no temporary file and no
rename — so the partially-written file is the visible target. -/
def restore_service_interrupted (hash : Bytes → Digest) (store : BackupStore)
    (db : Option HashDb) (production : Production)
    (service backup_file : String) (modePartialFlag : Bool)
    (k : Nat) (errMsg : String) :
    Except Unit ((Bool × String) × Option HashDb × Production) :=
  match verify_backup hash store db backup_file with
  | .error e => .error e
  | .ok ((is_valid, _), db') =>
    if is_valid then
      match lookupFile store backup_file with
      | some (.readable bytes) =>
          let fname := if modePartialFlag then "partial_restore" else "full_restore"
          .ok ((false, errMsg), db',
               setProdFile production service fname (bytes.take k))
      | _ =>
          .ok ((false, "Error de copia"), db', production)
    else
      .ok ((false, "Backup inválido"), db', production)

/-- Per-run restoration results dict `results`: service id to
`{"success": b, "message": m}`. -/
abbrev RunResults := List (String × (Bool × String))

/-- Loop body of OrchestrationAgent.orchestrate_restorations
(lines 178-192) over the prioritized service list: build the expected
backup name from the date, pick the mode with `selectMode`, restore, and
record the result; after a success whose demand is already below the
threshold, break (line 191-192), deferring every remaining service. -/
def orchestrate_loop (hash : Bytes → Digest) (cs : Registry)
    (demands : Demands) (date : String) (store : BackupStore) :
    List String → Option HashDb → Production → RunResults →
    Except Unit (RunResults × Option HashDb × Production)
  | [], db, production, results => .ok (results, db, production)
  | service :: rest, db, production, results =>
    let backup_file := service ++ "_backup_" ++ date ++ ".bak"
    match dictGet cs service with
    | none => .error ()   -- KeyError at line 184; unreachable: the list comes from cs
    | some data =>
      let current_demand := demandOf demands service
      match restore_service hash store db production service backup_file
          (selectMode current_demand data.demand_threshold) with
      | .error e => .error e
      | .ok ((success, message), db', production') =>
        let results' := dictSet results service (success, message)
        if success && decide (current_demand < data.demand_threshold) then
          .ok (results', db', production')
        else
          orchestrate_loop hash cs demands date store rest db' production' results'

/-- OrchestrationAgent.orchestrate_restorations (lines 171-195): sample
demand once (the `demands` snapshot feeds both the prioritization and the
loop, as `self.current_demands` does), compute the priority order, then
run the restoration loop starting from an empty results dict. -/
def orchestrate_restorations (hash : Bytes → Digest) (cs : Registry)
    (demands : Demands) (date : String) (store : BackupStore)
    (db : Option HashDb) (production : Production) :
    Except Unit (RunResults × Option HashDb × Production) :=
  orchestrate_loop hash cs demands date store
    (prioritize_services cs demands) db production []

/-- Backup directory for the concrete default-registry scenario: one
readable backup per default service, named by the source's
`{service}_backup_{date}.bak` convention for date 20250101. -/
def c1_store : BackupStore :=
  [("servicio_db_backup_20250101.bak", .readable [0]),
   ("servicio_api_backup_20250101.bak", .readable [1]),
   ("servicio_web_backup_20250101.bak", .readable [2])]

/-! Helper lemmas about the association-list dictionaries. -/

/-- Writing a key and reading it back yields the written value. -/
theorem dictGet_dictSet {α : Type} (d : List (String × α)) (k : String) (v : α) :
    dictGet (dictSet d k v) k = some v := by
  induction d with
  | nil => simp [dictGet, dictSet]
  | cons p rest ih =>
    by_cases h : p.1 = k
    · simp [dictGet, dictSet, h]
    · simp [dictGet, dictSet, h, ih]

/-- A key found by `dictGet` is among the dictionary's keys. -/
theorem dictGet_mem_keys {α : Type} (d : List (String × α)) (k : String) (v : α)
    (h : dictGet d k = some v) : k ∈ d.map (fun p => p.1) := by
  induction d with
  | nil => simp [dictGet] at h
  | cons p rest ih =>
    by_cases hk : p.1 = k
    · simp [hk]
    · simp [dictGet, hk] at h
      simp [ih h]

/-- On any backup whose read does not raise, `verify_backup` returns
normally (some `(is_valid, message)` outcome with a resulting ledger). -/
theorem verify_backup_ok_of_not_ioError (hash : Bytes → Digest)
    (store : BackupStore) (db : Option HashDb) (b : String)
    (h : lookupFile store b ≠ some .ioError) :
    ∃ r db', verify_backup hash store db b = .ok (r, db') := by
  unfold verify_backup
  cases hl : lookupFile store b with
  | none => exact ⟨_, _, rfl⟩
  | some fd =>
    cases fd with
    | ioError => exact absurd hl h
    | readable bytes =>
      simp only [calculate_hash]
      cases hd : dictGet (db.getD []) b with
      | none => exact ⟨_, _, rfl⟩
      | some known =>
        by_cases he : known = hash bytes
        · simp only [he, if_pos rfl]; exact ⟨_, _, rfl⟩
        · simp only [if_neg he]; exact ⟨_, _, rfl⟩

/-- Once the listing reaches a backup whose read raises an I/O error, the
validation loop returns that error, whatever the accumulated state. -/
theorem validation_loop_error (hash : Bytes → Digest) (now : String)
    (store : BackupStore) (backup : String)
    (hio : lookupFile store backup = some .ioError) :
    ∀ (names : List String), backup ∈ names →
    ∀ (db : Option HashDb) (status : List (String × IntegrityStatus)),
      validation_loop hash now store names db status = .error () := by
  intro names
  induction names with
  | nil => intro hb; cases hb
  | cons b0 rest ih =>
    intro hb db status
    by_cases hb0 : lookupFile store b0 = some FileData.ioError
    · simp [validation_loop, verify_backup, hb0, calculate_hash]
    · rcases List.mem_cons.mp hb with rfl | hbr
      · exact absurd hio hb0
      · obtain ⟨r, db2, hok⟩ := verify_backup_ok_of_not_ioError hash store db b0 hb0
        simp [validation_loop, hok]
        exact ih hbr _ _

/-- Claim C1: with the built-in default registry and the hardcoded demand
sample {db 150, api 65, web 30}, and a backup store in which every
attempted restore succeeds, the computed priority order is
[servicio_db, servicio_api, servicio_web]; servicio_db is restored and
the run continues (150 is not below 100), servicio_api is restored and
the run early-exits (65 < 80), so servicio_web receives no restoration
result. -/
theorem c1_concrete_scenario (hash : Bytes → Digest) :
    prioritize_services default_critical_services evaluate_demands =
      ["servicio_db", "servicio_api", "servicio_web"] ∧
    orchestrate_restorations hash default_critical_services evaluate_demands
        "20250101" c1_store none [] =
      .ok ([("servicio_db", (true, "Restauración exitosa")),
            ("servicio_api", (true, "Restauración exitosa"))],
           some [("servicio_db_backup_20250101.bak", hash [0]),
                 ("servicio_api_backup_20250101.bak", hash [1])],
           [("servicio_db", [("full_restore", [0])]),
            ("servicio_api", [("partial_restore", [1])])]) := by
  have hprio : prioritize_services default_critical_services evaluate_demands =
      ["servicio_db", "servicio_api", "servicio_web"] := by
    simp [prioritize_services, effective_priority, pymax, demandOf, dictGet,
      sortByKey, insertByKey, evaluate_demands, default_critical_services]
    norm_num [insertByKey]
  refine ⟨hprio, ?_⟩
  unfold orchestrate_restorations
  rw [hprio]
  simp [orchestrate_loop, dictGet, demandOf, restore_service, verify_backup,
    lookupFile, calculate_hash, dictSet, setProdFile, selectMode,
    evaluate_demands, default_critical_services, c1_store]
  norm_num

/-- Claim C2: when a ledger entry exists for an artifact and the
artifact's current bytes hash to a different digest, `verify_backup`
returns the mismatch outcome (False, "Hash no coincide") and the ledger
file is returned exactly as it was — the stored digest is never
overwritten on a mismatch. -/
theorem c2_mismatch_preserves_ledger (hash : Bytes → Digest)
    (store : BackupStore) (hashDbFile : Option HashDb)
    (backup_file : String) (bytes : Bytes) (stored : Digest)
    (hfile : lookupFile store backup_file = some (.readable bytes))
    (hentry : dictGet (hashDbFile.getD []) backup_file = some stored)
    (hdiff : hash bytes ≠ stored) :
    verify_backup hash store hashDbFile backup_file =
      .ok ((false, "Hash no coincide"), hashDbFile) := by
  simp [verify_backup, hfile, calculate_hash, hentry, Ne.symm hdiff]

/-- Witness for C2: a stored digest 999 against actual digest 6. -/
theorem c2_witness :
    verify_backup encodeBytes [("a.bak", .readable [5])]
        (some [("a.bak", 999)]) "a.bak" =
      .ok ((false, "Hash no coincide"), some [("a.bak", 999)]) :=
  c2_mismatch_preserves_ledger encodeBytes _ _ _ [5] 999
    (by simp [lookupFile, dictGet]) (by simp [dictGet]) (by decide)

/-- Counterexample to claim C3 as stated: with backup store
[a.bak (read raises), b.bak (readable)], `full_validation_cycle` does not
catch the per-artifact I/O failure — the exception propagates, the cycle
aborts with an error, and no status entry is produced for b.bak (nor for
any artifact), contradicting "the failure is caught and recorded ... and
the cycle still produces status entries for every other artifact". -/
theorem c3_counterexample :
    full_validation_cycle encodeBytes "2025-01-01T00:00:00"
      [("a.bak", .ioError), ("b.bak", .readable [1])] none [] = .error () := by
  rfl

/-- Claim C3 amended: an I/O failure raised while reading or hashing any
listed artifact is not caught by `full_validation_cycle`; it propagates
and aborts the whole cycle (only a backup missing from the store is
converted into a failed status, inside `verify_backup`). -/
theorem c3_amended_io_failure_aborts (hash : Bytes → Digest) (now : String)
    (store : BackupStore) (backup : String)
    (hio : lookupFile store backup = some .ioError)
    (db : Option HashDb) (status : List (String × IntegrityStatus)) :
    full_validation_cycle hash now store db status = .error () := by
  unfold full_validation_cycle
  exact validation_loop_error hash now store backup hio _
    (dictGet_mem_keys store backup _ hio) db status

/-- Witness for the amended C3: a three-artifact store whose middle
artifact raises on read aborts the whole cycle. -/
theorem c3_amended_witness :
    full_validation_cycle encodeBytes "2025-01-01T00:00:00"
      [("c.bak", .readable [2]), ("a.bak", .ioError), ("b.bak", .readable [1])]
      none [] = .error () :=
  c3_amended_io_failure_aborts encodeBytes "2025-01-01T00:00:00" _ "a.bak"
    (by simp [lookupFile, dictGet]) none []

/-- Counterexample to claim C4 as stated: restoring b.bak = [1,2,3] over
an old target state [9,9], with the copy interrupted after one byte,
leaves the visible target file holding [1] — neither the old state nor
the new state — because the source copies straight to the final path
with no staging and no atomic rename. -/
theorem c4_counterexample :
    restore_service_interrupted encodeBytes [("b.bak", .readable [1, 2, 3])] none
        [("svc", [("full_restore", [9, 9])])] "svc" "b.bak" false 1
        "copy interrupted" =
      .ok ((false, "copy interrupted"),
           some [("b.bak", encodeBytes [1, 2, 3])],
           [("svc", [("full_restore", [1])])]) ∧
    ([1] : Bytes) ≠ [9, 9] ∧ ([1] : Bytes) ≠ [1, 2, 3] := by
  refine ⟨rfl, by decide, by decide⟩

/-- Claim C4 amended: when the integrity pre-check passes,
`restore_service` writes the backup bytes directly to the final visible
path (`partial_restore`/`full_restore` under the service target) with no
temporary staging and no rename; a failure after k bytes is caught and
reported as a failure result, but leaves the visible target holding the
k-byte prefix of the backup. -/
theorem c4_amended_direct_write (hash : Bytes → Digest) (store : BackupStore)
    (db db' : Option HashDb) (production : Production)
    (service backup_file msg0 errMsg : String) (modePartialFlag : Bool)
    (bytes : Bytes) (k : Nat)
    (hverify : verify_backup hash store db backup_file = .ok ((true, msg0), db'))
    (hfile : lookupFile store backup_file = some (.readable bytes)) :
    restore_service_interrupted hash store db production service backup_file
        modePartialFlag k errMsg =
      .ok ((false, errMsg), db',
           setProdFile production service
             (if modePartialFlag then "partial_restore" else "full_restore")
             (bytes.take k)) := by
  simp [restore_service_interrupted, hverify, hfile]

/-- Witness for the amended C4: the same concrete interrupted copy. -/
theorem c4_amended_witness :
    restore_service_interrupted encodeBytes [("b.bak", .readable [1, 2, 3])] none
        [("svc", [("full_restore", [9, 9])])] "svc" "b.bak" false 1
        "copy interrupted" =
      .ok ((false, "copy interrupted"), some [("b.bak", 131844)],
           [("svc", [("full_restore", [1])])]) :=
  c4_amended_direct_write encodeBytes _ none _ _ "svc" "b.bak"
    "Nuevo backup registrado" "copy interrupted" false [1, 2, 3] 1
    (by rfl)
    (by simp [lookupFile, dictGet])

/-- Claim C5: whenever `verify_backup` reports the backup missing
("Backup no encontrado") or a digest mismatch ("Hash no coincide"),
`restore_service` returns the failure (False, "Backup inválido") and the
production store it returns is exactly the one it was given — no write
of any kind is performed on the target. -/
theorem c5_no_write_on_invalid (hash : Bytes → Digest) (store : BackupStore)
    (db db' : Option HashDb) (production : Production)
    (service backup_file : String) (modePartialFlag : Bool)
    (h : verify_backup hash store db backup_file =
           .ok ((false, "Backup no encontrado"), db') ∨
         verify_backup hash store db backup_file =
           .ok ((false, "Hash no coincide"), db')) :
    restore_service hash store db production service backup_file modePartialFlag =
      .ok ((false, "Backup inválido"), db', production) := by
  rcases h with h | h <;> simp [restore_service, h]

/-- Witness for C5: a mismatching backup leaves the target untouched. -/
theorem c5_witness :
    restore_service encodeBytes [("a.bak", .readable [5])]
        (some [("a.bak", 999)]) [("svc", [("full_restore", [9])])]
        "svc" "a.bak" false =
      .ok ((false, "Backup inválido"), some [("a.bak", 999)],
           [("svc", [("full_restore", [9])])]) :=
  c5_no_write_on_invalid encodeBytes _ _ _ _ _ _ _ (Or.inr (by rfl))

/-- Claim C6: the mode test of the orchestration loop selects the partial
restore exactly when the sampled demand is strictly below 1.5 times the
threshold (demand 1.49×T gives partial, exactly 1.5×T gives full), and a
one-service orchestration writes `partial_restore` or `full_restore`
accordingly. -/
theorem c6_mode_boundary (hash : Bytes → Digest) (s date : String)
    (p T d : Rat) (bytes : Bytes) (hT : 0 < T) :
    selectMode d T = decide (d < T * 1.5) ∧
    selectMode (1.49 * T) T = true ∧
    selectMode (1.5 * T) T = false ∧
    orchestrate_restorations hash [(s, ⟨p, T⟩)] [(s, d)] date
        [(s ++ "_backup_" ++ date ++ ".bak", .readable bytes)] none [] =
      .ok ([(s, (true, "Restauración exitosa"))],
           some [(s ++ "_backup_" ++ date ++ ".bak", hash bytes)],
           [(s, [((if d < T * 1.5 then "partial_restore" else "full_restore"),
                  bytes)])]) := by
  refine ⟨rfl, ?_, ?_, ?_⟩
  · simp only [selectMode, decide_eq_true_eq]
    norm_num
    linarith
  · simp only [selectMode, decide_eq_false_iff_not, not_lt]
    norm_num
    linarith
  · unfold orchestrate_restorations prioritize_services
    simp only [List.map, sortByKey, insertByKey]
    simp [orchestrate_loop, dictGet, demandOf, restore_service, verify_backup,
      lookupFile, calculate_hash, dictSet, setProdFile, selectMode]

/-- Witness for C6: threshold 100, demand 7, boundary instances at 149
and 150. -/
theorem c6_witness :
    selectMode 7 100 = decide ((7 : Rat) < 100 * 1.5) ∧
    selectMode (1.49 * 100) 100 = true ∧
    selectMode (1.5 * 100) 100 = false ∧
    orchestrate_restorations encodeBytes [("servicio_x", ⟨1, 100⟩)]
        [("servicio_x", 7)] "20250101"
        [("servicio_x_backup_20250101.bak", .readable [3])] none [] =
      .ok ([("servicio_x", (true, "Restauración exitosa"))],
           some [("servicio_x_backup_20250101.bak", encodeBytes [3])],
           [("servicio_x",
             [((if (7 : Rat) < 100 * 1.5 then "partial_restore" else "full_restore"),
               [3])])]) :=
  c6_mode_boundary encodeBytes "servicio_x" "20250101" 1 100 7 [3] (by norm_num)

/-- Claim C7: a first `verify_backup` on an artifact with no ledger entry
computes and persists its digest and returns (True, "Nuevo backup
registrado"); the persisted ledger maps the artifact to its digest, and
every later `verify_backup` against any ledger holding that digest for
the unchanged bytes returns (True, "Integridad verificada") with the
ledger unchanged — so repeated verification of identical content always
succeeds. -/
theorem c7_trust_on_first_use (hash : Bytes → Digest) (store : BackupStore)
    (hashDbFile : Option HashDb) (backup_file : String) (bytes : Bytes)
    (hfile : lookupFile store backup_file = some (.readable bytes))
    (hnew : dictGet (hashDbFile.getD []) backup_file = none) :
    (verify_backup hash store hashDbFile backup_file =
      .ok ((true, "Nuevo backup registrado"),
           some (dictSet (hashDbFile.getD []) backup_file (hash bytes)))) ∧
    dictGet (dictSet (hashDbFile.getD []) backup_file (hash bytes)) backup_file =
      some (hash bytes) ∧
    (∀ db : HashDb, dictGet db backup_file = some (hash bytes) →
      verify_backup hash store (some db) backup_file =
        .ok ((true, "Integridad verificada"), some db)) := by
  refine ⟨?_, dictGet_dictSet _ _ _, ?_⟩
  · simp [verify_backup, hfile, calculate_hash, hnew]
  · intro db hdb
    simp [verify_backup, hfile, calculate_hash, hdb]

/-- Witness for C7: registration of a.bak followed by verification. -/
theorem c7_witness :
    (verify_backup encodeBytes [("a.bak", .readable [5])] none "a.bak" =
      .ok ((true, "Nuevo backup registrado"), some [("a.bak", 6)])) ∧
    dictGet [("a.bak", 6)] "a.bak" = some 6 ∧
    (∀ db : HashDb, dictGet db "a.bak" = some 6 →
      verify_backup encodeBytes [("a.bak", .readable [5])] (some db) "a.bak" =
        .ok ((true, "Integridad verificada"), some db)) :=
  c7_trust_on_first_use encodeBytes [("a.bak", .readable [5])] none "a.bak" [5]
    (by simp [lookupFile, dictGet]) (by simp [dictGet])

/-- Claim C9: when the ledger store file is absent (`hash_db.json`
missing, loaded as the empty dict), `verify_backup` on an artifact that
exists and is readable registers its current digest — creating the
ledger file with that single entry — and returns the success outcome
(True, "Nuevo backup registrado"), never an error. -/
theorem c9_missing_ledger_rebootstrap (hash : Bytes → Digest)
    (store : BackupStore) (backup_file : String) (bytes : Bytes)
    (hfile : lookupFile store backup_file = some (.readable bytes)) :
    verify_backup hash store none backup_file =
      .ok ((true, "Nuevo backup registrado"), some [(backup_file, hash bytes)]) := by
  simp [verify_backup, hfile, calculate_hash, dictGet, dictSet]

/-- Witness for C9: a.bak registered into a freshly created ledger. -/
theorem c9_witness :
    verify_backup encodeBytes [("a.bak", .readable [5])] none "a.bak" =
      .ok ((true, "Nuevo backup registrado"), some [("a.bak", 6)]) :=
  c9_missing_ledger_rebootstrap encodeBytes [("a.bak", .readable [5])]
    "a.bak" [5] (by simp [lookupFile, dictGet])

/-- Claim C10: a service present in the registry but absent from the
demand sample gets demand 0, so its demand ratio is floored to 0.1 and
its effective priority is 10 times its static priority; in the
orchestration loop its mode test selects the partial restore, and when
its restore succeeds the loop returns immediately (0 is below the
positive threshold), deferring every remaining service. -/
theorem c10_absent_demand_service (hash : Bytes → Digest) (cs : Registry)
    (demands : Demands) (date : String) (store : BackupStore) (s : String)
    (data : ServiceData) (rest : List String) (db db' : Option HashDb)
    (production production' : Production) (results : RunResults) (msg : String)
    (hcs : dictGet cs s = some data)
    (hdem : dictGet demands s = none)
    (hT : 0 < data.demand_threshold)
    (hrestore : restore_service hash store db production s
        (s ++ "_backup_" ++ date ++ ".bak") true =
        .ok ((true, msg), db', production')) :
    effective_priority data (demandOf demands s) = data.priority * 10 ∧
    selectMode (demandOf demands s) data.demand_threshold = true ∧
    orchestrate_loop hash cs demands date store (s :: rest) db production results =
      .ok (dictSet results s (true, msg), db', production') := by
  have hd0 : demandOf demands s = 0 := by simp [demandOf, hdem]
  have hmode : selectMode (demandOf demands s) data.demand_threshold = true := by
    rw [hd0]
    simp only [selectMode, decide_eq_true_eq]
    nlinarith [hT]
  refine ⟨?_, hmode, ?_⟩
  · rw [hd0]
    simp [effective_priority, pymax]
    norm_num
  · rw [hd0] at hmode
    unfold orchestrate_loop
    simp only [hcs, hd0, hmode, hrestore]
    simp [hT]

/-- Witness for C10: service s1 (priority 2, threshold 50) absent from an
empty demand sample, with s2 still pending, is restored partially and
the run stops before s2. -/
theorem c10_witness :
    effective_priority ⟨2, 50⟩ (demandOf [] "s1") = 2 * 10 ∧
    selectMode (demandOf [] "s1") 50 = true ∧
    orchestrate_loop encodeBytes [("s1", ⟨2, 50⟩)] [] "20250101"
        [("s1_backup_20250101.bak", .readable [7])] ["s1", "s2"] none [] [] =
      .ok ([("s1", (true, "Restauración exitosa"))],
           some [("s1_backup_20250101.bak", 8)],
           [("s1", [("partial_restore", [7])])]) :=
  c10_absent_demand_service encodeBytes [("s1", ⟨2, 50⟩)] [] "20250101"
    [("s1_backup_20250101.bak", .readable [7])] "s1" ⟨2, 50⟩ ["s2"] none
    (some [("s1_backup_20250101.bak", 8)]) [] [("s1", [("partial_restore", [7])])]
    [] "Restauración exitosa"
    (by simp [dictGet]) (by simp [dictGet]) (by norm_num) (by rfl)

end CyberResilience
